import Mathlib

/-!
Shallow embedding of `app.py` (openclintech/fhirclient): a Streamlit form that
creates Patient resources on a remote FHIR server and looks them up by MRN.

Remote interactions (the FHIR server's responses to `patient.create` and
`Patient.where(...).perform_resources`) are modelled as explicit parameters;
`datetime.today()` is modelled as an explicit `today : Date` parameter; Python
exceptions are modelled with `Except`; console prints and remote calls are
returned as explicit logs.
-/

/-! ## Dates: `datetime.strptime(s, "%Y-%m-%d")` and tuple comparison -/

/-- A calendar date, as carried by Python `datetime`/`date` values. -/
structure Date where
  year : Nat
  month : Nat
  day : Nat
deriving DecidableEq

def isLeapYear (y : Nat) : Bool :=
  (y % 4 == 0 && y % 100 != 0) || y % 400 == 0

def daysInMonth (y m : Nat) : Nat :=
  if m == 2 then (if isLeapYear y then 29 else 28)
  else if m == 4 || m == 6 || m == 9 || m == 11 then 30
  else 31

/-- Split a character list on `-`, as the `%Y-%m-%d` format's literal dashes do. -/
def splitDash : List Char → List Char → List (List Char)
  | [], acc => [acc.reverse]
  | c :: rest, acc =>
    if c = '-' then acc.reverse :: splitDash rest []
    else splitDash rest (c :: acc)

def digitVal? (c : Char) : Option Nat :=
  if c.isDigit then some (c.toNat - '0'.toNat) else none

def charsToNatAux : List Char → Nat → Option Nat
  | [], acc => some acc
  | c :: rest, acc =>
    match digitVal? c with
    | none => none
    | some d => charsToNatAux rest (acc * 10 + d)

def charsToNat? (cs : List Char) : Option Nat :=
  match cs with
  | [] => none
  | _ => charsToNatAux cs 0

/-- Models `datetime.strptime(s, "%Y-%m-%d")`: a 4-digit year, a 1-2 digit month
in `1..12`, a 1-2 digit day valid for that month and year; `none` models the
`ValueError` raised on any other input. -/
def parseDate (s : String) : Option Date :=
  match splitDash s.toList [] with
  | [ys, ms, ds] =>
    if ys.length == 4 && ms.length ≤ 2 && ds.length ≤ 2 then
      match charsToNat? ys, charsToNat? ms, charsToNat? ds with
      | some y, some m, some d =>
        if 1 ≤ m && m ≤ 12 && 1 ≤ d && d ≤ daysInMonth y m && 1 ≤ y then
          some ⟨y, m, d⟩
        else none
      | _, _, _ => none
    else none
  | _ => none

/-- Python tuple comparison `(a, b) < (c, d)`: lexicographic. -/
def tupLt (a b : Nat × Nat) : Bool :=
  a.1 < b.1 || (a.1 == b.1 && a.2 < b.2)

/-- Date order (`earlier or equal`), lexicographic on (year, month, day). -/
def dateLe (a b : Date) : Bool :=
  a.year < b.year ||
    (a.year == b.year &&
      (a.month < b.month || (a.month == b.month && a.day ≤ b.day)))

/-- `calculate_age` (app.py lines 71-76): parses the birthdate string with
`strptime("%Y-%m-%d")` and returns
`today.year - birthdate.year - ((today.month, today.day) < (birthdate.month, birthdate.day))`,
Python booleans subtracting as 0/1. `none` models the `ValueError` that
`strptime` raises on a malformed string; `today` stands for `datetime.today()`. -/
def calculate_age (birthdate : String) (today : Date) : Option Int :=
  match parseDate birthdate with
  | none => none
  | some b =>
    some ((today.year : Int) - (b.year : Int) -
      (if tupLt (today.month, today.day) (b.month, b.day) then 1 else 0))

/-! ## MRN generation: `str(uuid.uuid4().int)[:9]` -/

/-- Base-10 digits of `n`, least significant first, with explicit fuel
(structural recursion so the kernel can evaluate it). Agrees with
`Nat.digits 10 n` whenever `n < 10 ^ fuel` (`digitsAux_eq_digits` below). -/
def digitsAux : Nat → Nat → List Nat
  | 0, _ => []
  | fuel + 1, n => if n = 0 then [] else n % 10 :: digitsAux fuel (n / 10)

/-- Python `str(n)` for a natural number `n`: decimal digits, most significant
first. Fuel 40 covers every value in range here: a UUID int is below
`2 ^ 128 < 10 ^ 40`. -/
def pyStrNat (n : Nat) : String :=
  if n = 0 then "0"
  else String.mk (((digitsAux 40 n).map Nat.digitChar).reverse)

/-- `generate_mrn` (app.py lines 15-17): `str(uuid.uuid4().int)[:9]`, with the
random UUID's 128-bit integer passed in as `u`. -/
def generate_mrn (u : Nat) : String :=
  String.mk ((pyStrNat u).data.take 9)

/-- The values `uuid.uuid4().int` can take: a 128-bit integer whose version
nibble (bits 76-79) is 4 and whose variant bits (62-63) are `10₂`, as
`uuid.uuid4()` always sets them. -/
def isUUID4 (u : Nat) : Prop :=
  u < 2 ^ 128 ∧ u / 2 ^ 76 % 16 = 4 ∧ u / 2 ^ 62 % 4 = 2

/-! ## The Patient resource payload and `create_and_post_patient` -/

structure Coding where
  system : String
  code : String
  display : String
deriving DecidableEq

structure IdentifierType where
  coding : List Coding
deriving DecidableEq

structure Identifier where
  use : Option String
  type : Option IdentifierType
  system : String
  value : String
deriving DecidableEq

structure HumanName where
  use : Option String
  family : Option String
  given : List String
deriving DecidableEq

/-- The fields of a FHIR Patient resource that app.py reads or writes.
`name = []`, `birthDate = none`, `id = none` model absent fields. -/
structure Patient where
  identifier : List Identifier
  name : List HumanName
  birthDate : Option String
  id : Option String
deriving DecidableEq

def system0 : String := "http://fhir.openclintech.com/r4"

def base0 : String := "http://hapi.fhir.org/baseR4"

/-- The Patient payload built at app.py lines 28-49: one MRN identifier, one
official name with the given family name and a single given name, and the
birthdate; no server-assigned id yet. -/
def create_patient_resource (first_name last_name birthdate mrn : String) : Patient :=
  { identifier := [{ use := some "official",
                     type := some ⟨[⟨"http://terminology.hl7.org/CodeSystem/v2-0203",
                                     "MR", "Medical record number"⟩]⟩,
                     system := system0,
                     value := mrn }],
    name := [{ use := some "official", family := some last_name, given := [first_name] }],
    birthDate := some birthdate,
    id := none }

/-- What the remote `patient.create(...)` interaction does on a given run:
raises an exception, returns a falsy result, or succeeds and leaves the
server-assigned id in `patient.id`. -/
inductive CreateResponse
  | exception (msg : String)
  | failure
  | success (resource_id : String)
deriving DecidableEq

/-- `create_and_post_patient` (app.py lines 19-63): generates an MRN, builds the
payload, posts it; returns `(mrn, resource_id)` on a truthy result, otherwise
prints to console and returns `None`. The second component is the list of
console prints. -/
def create_and_post_patient (first_name last_name birthdate : String)
    (resp : CreateResponse) (u : Nat) : Option (String × String) × List String :=
  let mrn := generate_mrn u
  let _patient := create_patient_resource first_name last_name birthdate mrn
  match resp with
  | .success resource_id => (some (mrn, resource_id), [])
  | .failure => (none, ["Patient creation failed."])
  | .exception e => (none, ["An error occurred during patient creation: " ++ e])

/-! ## `verify_patient_creation` -/

/-- Python exceptions the script can raise. -/
inductive PyError
  | nameError (x : String)
  | typeError (msg : String)
  | valueError (msg : String)
deriving DecidableEq

/-- A JSON leaf in the displayed summary: a string or an integer age. -/
inductive JsonVal
  | str (s : String)
  | int (i : Int)
deriving DecidableEq

/-- `patient.name[0].given[0] if patient.name and patient.name[0].given else "Not provided"`
(app.py line 89). -/
def extractFirstName (patient : Patient) : String :=
  match patient.name with
  | [] => "Not provided"
  | n :: _ =>
    match n.given with
    | [] => "Not provided"
    | g :: _ => g

/-- `patient.name[0].family if patient.name and patient.name[0].family else "Not provided"`
(app.py line 90); an absent (`None`) or empty family name is falsy. -/
def extractLastName (patient : Patient) : String :=
  match patient.name with
  | [] => "Not provided"
  | n :: _ =>
    match n.family with
    | none => "Not provided"
    | some f => if f != "" then f else "Not provided"

/-- `patient.birthDate.isostring if patient.birthDate else "Not provided"`
(app.py line 91); a present `FHIRDate` object is always truthy. -/
def extractBirthdate (patient : Patient) : String :=
  match patient.birthDate with
  | none => "Not provided"
  | some s => s

/-- `calculate_age(birthdate) if patient.birthDate else "Not provided"`
(app.py line 92); a `ValueError` from `strptime` propagates. -/
def extractAge (patient : Patient) (today : Date) : Except PyError JsonVal :=
  match patient.birthDate with
  | none => .ok (.str "Not provided")
  | some s =>
    match calculate_age s today with
    | none => .error (.valueError "strptime")
    | some a => .ok (.int a)

/-- The key-value summary passed to `st.json` (app.py lines 97-106). -/
structure PatientDisplay where
  mrn : String
  recordId : Option String
  firstName : String
  lastName : String
  dateOfBirth : String
  age : JsonVal
  fullUrl : String
deriving DecidableEq

/-- What `verify_patient_creation` renders: a success banner with the summary,
or the error banner "Verification failed. No patient found with the given MRN." -/
inductive VerifyOutcome
  | found (d : PatientDisplay)
  | notFound
deriving DecidableEq

/-- app.py lines 82-108: on a non-empty result list, take `patients[0]` and
render its details; on an empty list, render the error banner. -/
def render_patient (patients : List Patient) (mrn base_uri : String) (today : Date) :
    Except PyError VerifyOutcome :=
  match patients with
  | [] => .ok .notFound
  | patient :: _ =>
    let resource_id := patient.id
    let full_url := base_uri ++ "/Patient/" ++
      (match resource_id with | some i => i | none => "None")
    match extractAge patient today with
    | .error e => .error e
    | .ok age =>
      .ok (.found { mrn := mrn,
                    recordId := resource_id,
                    firstName := extractFirstName patient,
                    lastName := extractLastName patient,
                    dateOfBirth := extractBirthdate patient,
                    age := age,
                    fullUrl := full_url })

/-- The search struct built at app.py line 80:
`Patient.where(struct={'identifier': f"{system}|{mrn}"})`. -/
def search_struct (system mrn : String) : List (String × String) :=
  [("identifier", system ++ "|" ++ mrn)]

/-- `verify_patient_creation` (app.py lines 78-108), with the server's search
behaviour passed in as `search`. -/
def verify_patient_creation (search : List (String × String) → List Patient)
    (mrn system base_uri : String) (today : Date) : Except PyError VerifyOutcome :=
  render_patient (search (search_struct system mrn)) mrn base_uri today

/-- Projection: the first name shown by a successful verification. -/
def foundFirstName : Except PyError VerifyOutcome → Option String
  | .ok (.found d) => some d.firstName
  | _ => none

/-- Projection: the last name shown by a successful verification. -/
def foundLastName : Except PyError VerifyOutcome → Option String
  | .ok (.found d) => some d.lastName
  | _ => none

/-- Projection: the birth date shown by a successful verification. -/
def foundBirthdate : Except PyError VerifyOutcome → Option String
  | .ok (.found d) => some d.dateOfBirth
  | _ => none

/-! ## The Streamlit handlers in `app()` -/

/-- Names resolvable at app.py line 126: the module-level globals of app.py plus
the local variables of `app()` bound on the creation path. `birthdate_input` is
not among them, so evaluating it raises `NameError`. -/
def app_scope_names : List String :=
  ["st", "client", "p", "datetime", "date", "uuid",
   "initialize_fhir_client", "generate_mrn", "create_and_post_patient",
   "print_details", "calculate_age", "verify_patient_creation", "app",
   "fhir_client", "system", "action", "first_name", "last_name", "birthdate"]

def pad2 (n : Nat) : String :=
  if n < 10 then "0" ++ toString n else toString n

def pad4 (n : Nat) : String :=
  (if n < 10 then "000" else if n < 100 then "00" else if n < 1000 then "0" else "")
    ++ toString n

/-- Python `d.strftime("%Y-%m-%d")`. -/
def strftime_iso (d : Date) : String :=
  pad4 d.year ++ "-" ++ pad2 d.month ++ "-" ++ pad2 d.day

/-- What a handler run produces for the UI, short of an exception. -/
inductive UIResult
  | validationError (msg : String)
  | verified (v : VerifyOutcome)
deriving DecidableEq

/-- app.py lines 127-128, after `birthdate_str` has been computed: bind
`mrn, resource_id = create_and_post_patient(...)` — unpacking `None` raises
`TypeError` — then call `verify_patient_creation`. The second component lists
the remote-server calls made. -/
def handle_create_after_strftime (first_name last_name birthdate_str : String)
    (resp : CreateResponse) (u : Nat)
    (search : List (String × String) → List Patient) (today : Date) :
    Except PyError UIResult × List String :=
  match (create_and_post_patient first_name last_name birthdate_str resp u).fst with
  | none => (.error (.typeError "cannot unpack non-iterable NoneType object"),
             ["Patient.create"])
  | some (mrn, _resource_id) =>
    ((match verify_patient_creation search mrn system0 base0 today with
      | .error e => .error e
      | .ok v => .ok (.verified v)),
     ["Patient.create", "Patient.search"])

/-- The `Create Patient` button handler (app.py lines 124-130). `birthdate` is
the widget-bound `st.date_input` value (`none` models an empty/falsy value).
Line 126 evaluates `birthdate_input.strftime("%Y-%m-%d")`: the name must
resolve first, and it is not in scope, so the branch that would continue is
unreachable (its argument is modelled with the widget-bound date, the only
birthdate value that exists on that path). -/
def handle_create_click (first_name last_name : String) (birthdate : Option Date)
    (resp : CreateResponse) (u : Nat)
    (search : List (String × String) → List Patient) (today : Date) :
    Except PyError UIResult × List String :=
  if first_name != "" && last_name != "" && birthdate.isSome then
    if app_scope_names.contains "birthdate_input" then
      handle_create_after_strftime first_name last_name
        (strftime_iso (birthdate.getD ⟨1900, 1, 1⟩)) resp u search today
    else (.error (.nameError "birthdate_input"), [])
  else (.ok (.validationError "Please fill out all the fields."), [])

/-- The `Search` button handler (app.py lines 135-139). -/
def handle_search_click (search_mrn : String)
    (search : List (String × String) → List Patient) (today : Date) :
    Except PyError UIResult × List String :=
  if search_mrn != "" then
    ((match verify_patient_creation search search_mrn system0 base0 today with
      | .error e => .error e
      | .ok v => .ok (.verified v)),
     ["Patient.search"])
  else (.ok (.validationError "Please enter an MRN."), [])

/-! ## Helper lemmas -/

theorem digitsAux_eq_digits : ∀ (fuel n : Nat), n < 10 ^ fuel →
    digitsAux fuel n = Nat.digits 10 n := by
  intro fuel
  induction fuel with
  | zero =>
    intro n h
    simp only [pow_zero, Nat.lt_one_iff] at h
    subst h
    simp [digitsAux]
  | succ f ih =>
    intro n h
    by_cases hn : n = 0
    · subst hn; simp [digitsAux]
    · have hdiv : n / 10 < 10 ^ f := by
        rw [Nat.div_lt_iff_lt_mul (by norm_num)]
        calc n < 10 ^ (f + 1) := h
        _ = 10 ^ f * 10 := by ring
      simp only [digitsAux, if_neg hn]
      rw [ih (n / 10) hdiv,
        ← Nat.digits_def' (by norm_num : 1 < 10) (Nat.pos_of_ne_zero hn)]

theorem digitChar_isDigit (d : Nat) (h : d < 10) : (Nat.digitChar d).isDigit = true := by
  interval_cases d <;> decide

theorem parse_birth_2000 : parseDate "2000-06-15" = some ⟨2000, 6, 15⟩ := by decide

/-! ## Claims -/

/-- C1: creating a patient and looking it up by the returned MRN surfaces the
same first name, last name, and birth date: the payload stores exactly one name
entry with the given first/family names and the given birthDate, and
`verify_patient_creation` extracts first name, last name, and birth date from
those same fields of the returned resource. -/
theorem create_then_lookup_roundtrip (f l b mrn base_uri : String) (today : Date)
    (search : List (String × String) → List Patient)
    (_hf : f ≠ "") (hl : l ≠ "") (hb : (parseDate b).isSome = true)
    (hsearch : search (search_struct system0 mrn) = [create_patient_resource f l b mrn]) :
    (create_patient_resource f l b mrn).name =
      [{ use := some "official", family := some l, given := [f] }] ∧
    (create_patient_resource f l b mrn).birthDate = some b ∧
    foundFirstName (verify_patient_creation search mrn system0 base_uri today) = some f ∧
    foundLastName (verify_patient_creation search mrn system0 base_uri today) = some l ∧
    foundBirthdate (verify_patient_creation search mrn system0 base_uri today) = some b := by
  obtain ⟨bd, hbd⟩ := Option.isSome_iff_exists.mp hb
  refine ⟨rfl, rfl, ?_, ?_, ?_⟩ <;>
    simp [verify_patient_creation, hsearch, render_patient, extractAge,
      create_patient_resource, calculate_age, hbd, extractFirstName, extractLastName,
      extractBirthdate, foundFirstName, foundLastName, foundBirthdate, hl]

/-- Witness for C1 at a concrete patient. -/
theorem create_then_lookup_roundtrip_witness :
    (create_patient_resource "John" "Doe" "2000-06-15" "123456789").name =
      [{ use := some "official", family := some "Doe", given := ["John"] }] ∧
    (create_patient_resource "John" "Doe" "2000-06-15" "123456789").birthDate =
      some "2000-06-15" ∧
    foundFirstName (verify_patient_creation
      (fun _ => [create_patient_resource "John" "Doe" "2000-06-15" "123456789"])
      "123456789" system0 base0 ⟨2024, 6, 15⟩) = some "John" ∧
    foundLastName (verify_patient_creation
      (fun _ => [create_patient_resource "John" "Doe" "2000-06-15" "123456789"])
      "123456789" system0 base0 ⟨2024, 6, 15⟩) = some "Doe" ∧
    foundBirthdate (verify_patient_creation
      (fun _ => [create_patient_resource "John" "Doe" "2000-06-15" "123456789"])
      "123456789" system0 base0 ⟨2024, 6, 15⟩) = some "2000-06-15" :=
  create_then_lookup_roundtrip "John" "Doe" "2000-06-15" "123456789" base0 ⟨2024, 6, 15⟩
    (fun _ => [create_patient_resource "John" "Doe" "2000-06-15" "123456789"])
    (by decide) (by decide) (by decide) rfl

/-- C2: for every value `uuid.uuid4().int` can take, `generate_mrn` returns a
9-character string consisting only of decimal digits. -/
theorem generate_mrn_nine_digits (u : Nat) (h : isUUID4 u) :
    (generate_mrn u).length = 9 ∧ ∀ c ∈ (generate_mrn u).data, c.isDigit = true := by
  obtain ⟨h128, hver, -⟩ := h
  have h4 : 4 ≤ u / 2 ^ 76 := by
    have := Nat.mod_le (u / 2 ^ 76) 16
    omega
  have hge : 4 * 2 ^ 76 ≤ u :=
    le_trans (Nat.mul_le_mul_right _ h4) (Nat.div_mul_le_self u _)
  have hne : u ≠ 0 := by
    have : (0 : Nat) < 4 * 2 ^ 76 := by positivity
    omega
  have h10 : 10 ^ 8 ≤ u := le_trans (by norm_num) hge
  have hdig : digitsAux 40 u = Nat.digits 10 u :=
    digitsAux_eq_digits 40 u (lt_trans h128 (by norm_num))
  have hlen : 9 ≤ (Nat.digits 10 u).length := by
    rw [Nat.digits_len 10 u (by norm_num) hne]
    have := Nat.le_log_of_pow_le (by norm_num : (1 : Nat) < 10) h10
    omega
  have hdata : (generate_mrn u).data =
      (((Nat.digits 10 u).map Nat.digitChar).reverse).take 9 := by
    simp [generate_mrn, pyStrNat, if_neg hne, hdig]
  constructor
  · have : (generate_mrn u).length = (generate_mrn u).data.length := rfl
    rw [this, hdata, List.length_take, List.length_reverse, List.length_map]
    omega
  · intro c hc
    rw [hdata] at hc
    have hc2 : c ∈ ((Nat.digits 10 u).map Nat.digitChar).reverse :=
      List.take_subset _ _ hc
    rw [List.mem_reverse, List.mem_map] at hc2
    obtain ⟨d, hd, rfl⟩ := hc2
    exact digitChar_isDigit d (Nat.digits_lt_base (by norm_num) hd)

/-- Witness for C2 at a concrete version-4 UUID integer. -/
theorem generate_mrn_nine_digits_witness :
    isUUID4 (4 * 2 ^ 76 + 2 * 2 ^ 62) ∧
    (generate_mrn (4 * 2 ^ 76 + 2 * 2 ^ 62)).length = 9 ∧
    ∀ c ∈ (generate_mrn (4 * 2 ^ 76 + 2 * 2 ^ 62)).data, c.isDigit = true :=
  ⟨⟨by decide, by decide, by decide⟩,
   generate_mrn_nine_digits (4 * 2 ^ 76 + 2 * 2 ^ 62) ⟨by decide, by decide, by decide⟩⟩

/-- C3 (counterexample): the claim says age is 24 whenever today is 2024-06-15
or later, but at today = 2025-06-15 — a later date — the code returns 25. -/
theorem calculate_age_later_year_counterexample :
    dateLe ⟨2024, 6, 15⟩ ⟨2025, 6, 15⟩ = true ∧
    calculate_age "2000-06-15" ⟨2025, 6, 15⟩ = some 25 ∧
    calculate_age "2000-06-15" ⟨2025, 6, 15⟩ ≠ some 24 := by decide

/-- C3 (amended): `calculate_age` on a well-formed birthdate string returns
`today.year - birth.year - 1` exactly when `(today.month, today.day)` is
lexicographically below `(birth.month, birth.day)`; for birthdate 2000-06-15 it
returns 23 when today is 2024-06-14, and 24 when today is 2024-06-15 or later
within year 2024. -/
theorem calculate_age_boundary (s : String) (b t : Date)
    (hp : parseDate s = some b) :
    (calculate_age s t = some ((t.year : Int) - (b.year : Int) - 1) ↔
      tupLt (t.month, t.day) (b.month, b.day) = true) ∧
    calculate_age "2000-06-15" ⟨2024, 6, 14⟩ = some 23 ∧
    (t.year = 2024 → dateLe ⟨2024, 6, 15⟩ t = true →
      calculate_age "2000-06-15" t = some 24) := by
  refine ⟨?_, by decide, ?_⟩
  · by_cases htup : tupLt (t.month, t.day) (b.month, b.day) = true
    · simp [calculate_age, hp, htup]
    · simp only [calculate_age, hp, htup, if_neg, Bool.not_eq_true] at *
      simp [htup]
      omega
  · intro hy hle
    have hnt : ¬ tupLt (t.month, t.day) (6, 15) = true := by
      simp only [dateLe, hy] at hle
      simp only [tupLt, Bool.or_eq_true, Bool.and_eq_true, decide_eq_true_eq,
        beq_iff_eq] at hle ⊢
      omega
    simp [calculate_age, parse_birth_2000, hnt, hy]

/-- Witness for C3 at a concrete late-2024 date. -/
theorem calculate_age_boundary_witness :
    calculate_age "2000-06-15" ⟨2024, 11, 30⟩ = some 24 :=
  (calculate_age_boundary "2000-06-15" ⟨2000, 6, 15⟩ ⟨2024, 11, 30⟩
    parse_birth_2000).2.2 rfl (by decide)

/-- C4: `create_and_post_patient` never propagates an exception: a successful
truthy create returns `(mrn, resource_id)` with nothing printed; a falsy result
or an exception anywhere in the body yields `None` with a console log. -/
theorem create_and_post_patient_total (f l b : String) (resp : CreateResponse) (u : Nat) :
    (∀ rid, resp = .success rid →
      create_and_post_patient f l b resp u = (some (generate_mrn u, rid), [])) ∧
    (resp = .failure ∨ (∃ e, resp = .exception e) →
      (create_and_post_patient f l b resp u).fst = none ∧
      (create_and_post_patient f l b resp u).snd ≠ []) := by
  constructor
  · rintro rid rfl
    rfl
  · rintro (rfl | ⟨e, rfl⟩) <;> simp [create_and_post_patient]

/-- Witness for C4: one successful and one failing run. -/
theorem create_and_post_patient_total_witness :
    create_and_post_patient "John" "Doe" "2000-06-15" (.success "99") 0 =
      (some (generate_mrn 0, "99"), []) ∧
    (create_and_post_patient "John" "Doe" "2000-06-15" .failure 0).fst = none ∧
    (create_and_post_patient "John" "Doe" "2000-06-15" .failure 0).snd ≠ [] :=
  ⟨(create_and_post_patient_total "John" "Doe" "2000-06-15" (.success "99") 0).1 "99" rfl,
   (create_and_post_patient_total "John" "Doe" "2000-06-15" .failure 0).2 (Or.inl rfl)⟩

/-- C5: with all three creation fields non-empty, the handler fails with
`NameError` on the undefined `birthdate_input` before `create_and_post_patient`
or the remote server is reached (no remote call is logged). -/
theorem creation_submit_name_error (f l : String) (bd : Option Date)
    (resp : CreateResponse) (u : Nat)
    (search : List (String × String) → List Patient) (today : Date)
    (hf : f ≠ "") (hl : l ≠ "") (hbd : bd.isSome = true) :
    handle_create_click f l bd resp u search today =
      (.error (.nameError "birthdate_input"), []) := by
  have hscope : "birthdate_input" ∉ app_scope_names := by decide
  simp [handle_create_click, hf, hl, hbd, hscope]

/-- Witness for C5 at a concrete filled-in form. -/
theorem creation_submit_name_error_witness :
    handle_create_click "John" "Doe" (some ⟨2000, 6, 15⟩) .failure 0
      (fun _ => []) ⟨2024, 6, 15⟩ = (.error (.nameError "birthdate_input"), []) :=
  creation_submit_name_error "John" "Doe" (some ⟨2000, 6, 15⟩) .failure 0
    (fun _ => []) ⟨2024, 6, 15⟩ (by decide) (by decide) rfl

/-- C6: a creation submission with an empty first name, last name, or birthdate
shows the validation error and makes no remote call; likewise the lookup
handler with an empty MRN. -/
theorem empty_fields_validation_error (f l : String) (bd : Option Date)
    (resp : CreateResponse) (u : Nat)
    (search : List (String × String) → List Patient) (today : Date)
    (h : f = "" ∨ l = "" ∨ bd = none) :
    handle_create_click f l bd resp u search today =
      (.ok (.validationError "Please fill out all the fields."), []) ∧
    handle_search_click "" search today =
      (.ok (.validationError "Please enter an MRN."), []) := by
  constructor
  · have hguard : (f != "" && l != "" && bd.isSome) = false := by
      rcases h with rfl | rfl | rfl <;> simp
    simp [handle_create_click, hguard]
  · rfl

/-- Witness for C6 with an empty first name and an empty MRN. -/
theorem empty_fields_validation_error_witness :
    handle_create_click "" "Doe" (some ⟨2000, 6, 15⟩) .failure 0
      (fun _ => []) ⟨2024, 6, 15⟩ =
      (.ok (.validationError "Please fill out all the fields."), []) ∧
    handle_search_click "" (fun _ => []) ⟨2024, 6, 15⟩ =
      (.ok (.validationError "Please enter an MRN."), []) :=
  empty_fields_validation_error "" "Doe" (some ⟨2000, 6, 15⟩) .failure 0
    (fun _ => []) ⟨2024, 6, 15⟩ (Or.inl rfl)

/-- C7: when the server search for the MRN returns no patients,
`verify_patient_creation` renders the no-patient-found banner without raising
or touching any list element. -/
theorem lookup_miss_not_found (search : List (String × String) → List Patient)
    (mrn system base_uri : String) (today : Date)
    (h : search (search_struct system mrn) = []) :
    verify_patient_creation search mrn system base_uri today = .ok .notFound := by
  simp [verify_patient_creation, h, render_patient]

/-- Witness for C7 with a server returning no matches. -/
theorem lookup_miss_not_found_witness :
    verify_patient_creation (fun _ => []) "000000000" system0 base0 ⟨2024, 6, 15⟩ =
      .ok .notFound :=
  lookup_miss_not_found (fun _ => []) "000000000" system0 base0 ⟨2024, 6, 15⟩ rfl

/-- C8: the search is always built with the single identifier parameter
`system|mrn`, and on a non-empty result list exactly the first patient is
displayed, any further matches ignored. -/
theorem search_struct_and_first_match (search : List (String × String) → List Patient)
    (mrn system base_uri : String) (today : Date) (p : Patient) (rest : List Patient) :
    search_struct system mrn = [("identifier", system ++ "|" ++ mrn)] ∧
    verify_patient_creation search mrn system base_uri today =
      render_patient (search [("identifier", system ++ "|" ++ mrn)]) mrn base_uri today ∧
    render_patient (p :: rest) mrn base_uri today =
      render_patient [p] mrn base_uri today :=
  ⟨rfl, rfl, rfl⟩

/-- C9: lines 127-128 bind `mrn, resource_id = create_and_post_patient(...)`
with no guard: whenever that call returns `None`, the unpacking raises
`TypeError` instead of surfacing a handled failure. -/
theorem unguarded_unpack_raises (f l bstr : String) (resp : CreateResponse) (u : Nat)
    (search : List (String × String) → List Patient) (today : Date)
    (h : (create_and_post_patient f l bstr resp u).fst = none) :
    (handle_create_after_strftime f l bstr resp u search today).fst =
      .error (.typeError "cannot unpack non-iterable NoneType object") := by
  simp [handle_create_after_strftime, h]

/-- Witness for C9 with a falsy create result. -/
theorem unguarded_unpack_raises_witness :
    (handle_create_after_strftime "John" "Doe" "2000-06-15" .failure 0
      (fun _ => []) ⟨2024, 6, 15⟩).fst =
      .error (.typeError "cannot unpack non-iterable NoneType object") :=
  unguarded_unpack_raises "John" "Doe" "2000-06-15" .failure 0
    (fun _ => []) ⟨2024, 6, 15⟩ rfl

/-- C10: every absent underlying field renders as the literal "Not provided"
(empty name list, empty given list, absent or empty family, absent birthDate),
and with no birthDate the age is the string "Not provided" with `calculate_age`
never invoked, so no date-parse failure can occur. -/
theorem missing_fields_not_provided (p : Patient) (n : HumanName)
    (rest : List HumanName) (today : Date) :
    (p.name = [] → extractFirstName p = "Not provided" ∧
      extractLastName p = "Not provided") ∧
    (p.name = n :: rest → n.given = [] → extractFirstName p = "Not provided") ∧
    (p.name = n :: rest → n.family = none → extractLastName p = "Not provided") ∧
    (p.name = n :: rest → n.family = some "" → extractLastName p = "Not provided") ∧
    (p.birthDate = none → extractBirthdate p = "Not provided" ∧
      extractAge p today = .ok (.str "Not provided")) := by
  refine ⟨fun h => ?_, fun h hg => ?_, fun h hfam => ?_, fun h hfam => ?_, fun h => ?_⟩
  · simp [extractFirstName, extractLastName, h]
  · simp [extractFirstName, h, hg]
  · simp [extractLastName, h, hfam]
  · simp [extractLastName, h, hfam]
  · simp [extractBirthdate, extractAge, h]

/-- Witness for C10 across concrete patients with each field absent. -/
theorem missing_fields_not_provided_witness :
    (extractFirstName (Patient.mk [] [] none none) = "Not provided" ∧
      extractLastName (Patient.mk [] [] none none) = "Not provided") ∧
    extractFirstName (Patient.mk [] [HumanName.mk none none []] none none) =
      "Not provided" ∧
    extractLastName (Patient.mk [] [HumanName.mk none none []] none none) =
      "Not provided" ∧
    extractLastName (Patient.mk [] [HumanName.mk none (some "") ["J"]] none none) =
      "Not provided" ∧
    extractBirthdate (Patient.mk [] [] none none) = "Not provided" ∧
    extractAge (Patient.mk [] [] none none) ⟨2024, 1, 1⟩ = .ok (.str "Not provided") :=
  ⟨(missing_fields_not_provided (Patient.mk [] [] none none)
      (HumanName.mk none none []) [] ⟨2024, 1, 1⟩).1 rfl,
   (missing_fields_not_provided (Patient.mk [] [HumanName.mk none none []] none none)
      (HumanName.mk none none []) [] ⟨2024, 1, 1⟩).2.1 rfl rfl,
   (missing_fields_not_provided (Patient.mk [] [HumanName.mk none none []] none none)
      (HumanName.mk none none []) [] ⟨2024, 1, 1⟩).2.2.1 rfl rfl,
   (missing_fields_not_provided (Patient.mk [] [HumanName.mk none (some "") ["J"]] none none)
      (HumanName.mk none (some "") ["J"]) [] ⟨2024, 1, 1⟩).2.2.2.1 rfl rfl,
   ((missing_fields_not_provided (Patient.mk [] [] none none)
      (HumanName.mk none none []) [] ⟨2024, 1, 1⟩).2.2.2.2 rfl).1,
   ((missing_fields_not_provided (Patient.mk [] [] none none)
      (HumanName.mk none none []) [] ⟨2024, 1, 1⟩).2.2.2.2 rfl).2⟩
